import Mathlib

/-!
# Verification of the piju music-server control plane

A shallow embedding, in Lean 4, of the parts of the `piju-server` repository
(`src/pijuv2/...`) that the frozen claims are about, together with proofs
settling those claims.

Conventions of the embedding:

* Python functions that can raise become `Except PyError _`-valued Lean
  functions; the relevant Python exception classes are collected in `PyError`.
* Database state (`src/pijuv2/database/database.py`) is passed explicitly as a
  `DbState`; SQLAlchemy rows are structures whose nullable columns are
  `Option`-typed, and a SQL `col == value` comparison with a `None` value
  (which SQLAlchemy renders as `IS NULL`) is ordinary `Option` equality.
* Python `list` subscription is `pyGet`, with Python's negative-index wrap
  and `IndexError` semantics.
* Strings are modelled over their ASCII fragment: `str.isdigit`, `int(str)`
  and SQLite's `lower()` are modelled for ASCII characters, which covers every
  string the claims and the repository's own tests exercise.
* Filesystem contents (`os.path.isfile`) are a parameter `fs : String → Bool`.
* Python's calling convention is modelled where the claims depend on it: a
  call site that passes a keyword argument a callee does not declare, or too
  few positional arguments, raises `TypeError`; the callee's parameter list is
  transcribed from the source `def` line.
-/

set_option autoImplicit false

namespace Piju

/-- Python exception classes that the embedded code can raise. -/
inductive PyError where
  | indexError
  | typeError
  | valueError
  | notFound        -- database.NotFoundException (from sqlalchemy NoResultFound)
  | integrityError  -- database.DatabaseIntegrityException (MultipleResultsFound)
  | assertionError
  | badRequest      -- werkzeug.exceptions.BadRequest
  | unknown
  deriving Repr, DecidableEq

/-- Python list subscription `xs[i]`: non-negative indices are direct,
negative indices wrap from the end, anything else raises `IndexError`. -/
def pyGet {α : Type} (xs : List α) (i : Int) : Except PyError α :=
  if h : 0 ≤ i ∧ i.toNat < xs.length then
    .ok (xs.get ⟨i.toNat, h.2⟩)
  else if h' : i < 0 ∧ (i + xs.length).toNat < xs.length ∧ 0 ≤ i + xs.length then
    .ok (xs.get ⟨(i + xs.length).toNat, h'.2.1⟩)
  else
    .error .indexError

end Piju

namespace Piju.FilePlayer

/-!
## File player (`src/pijuv2/player/fileplayer.py`)

`QueuedTrack` is the namedtuple from the source; `FilePlayerState` collects
the mutable attributes of `FilePlayer` (and of its base `PlayerInterface`)
that the embedded operations read or write.  The backing decoder
(`MP3MusicPlayer` / `MPVMusicPlayer`) is modelled as a handle recording which
decoder variant was launched on which file.
-/

/-- `QueuedTrack = namedtuple('QueuedTrack', 'filepath, trackid, artist, title, artwork')` -/
structure QueuedTrack where
  filepath : String
  trackid : Option Int
  artist : Option String
  title : Option String
  artwork : Option String
  deriving Repr, DecidableEq, Inhabited

/-- Which decoder `_play_song` launched (`MP3MusicPlayer` for `.mp3`,
`MPVMusicPlayer` otherwise). -/
inductive DecoderKind where
  | mp3
  | mpv
  deriving Repr, DecidableEq

/-- The mutable state of a `FilePlayer` object. `currentPlayer` is
`self.current_player`: `none` when no decoder child exists, otherwise the
decoder variant and the file it was started on. -/
structure State where
  queue : List QueuedTrack
  currentTrackIndex : Option Int
  currentStatus : String
  currentVolume : Int
  currentTracklistIdentifier : String
  currentPlayer : Option (DecoderKind × String)
  deriving Repr, DecidableEq

/-- The state `PlayerInterface.__init__` plus `FilePlayer.__init__` produce
before any queue is installed. -/
def initState : State :=
  { queue := []
    currentTrackIndex := none
    currentStatus := "stopped"
    currentVolume := 100
    currentTracklistIdentifier := ""
    currentPlayer := none }

/-- `FilePlayer._stop_player`: stop and forget the decoder child; report
whether one was running. -/
def stop_player (st : State) : Bool × State :=
  (st.currentPlayer.isSome, { st with currentPlayer := none })

/-- Python `s.endswith(suffix)`: the suffix test on the character lists. -/
def pyEndsWith (s suffix : String) : Bool :=
  suffix.data.isSuffixOf s.data

/-- The decoder `_play_song` dispatches to: `filename.endswith('.mp3')`
selects `MP3MusicPlayer`, anything else `MPVMusicPlayer`. -/
def decoderFor (filename : String) : DecoderKind :=
  if pyEndsWith filename ".mp3" then .mp3 else .mpv

/-- `FilePlayer._play_song(filename)`: stop any current decoder; if the file
is missing return `False` (status left as it was); otherwise launch the
decoder selected by the file extension and set status to `'playing'`. -/
def play_song (fs : String → Bool) (st : State) (filename : String) : Bool × State :=
  let st1 := (stop_player st).2
  if fs filename then
    (true, { st1 with currentPlayer := some (decoderFor filename, filename),
                      currentStatus := "playing" })
  else
    (false, st1)

/-- `FilePlayer.stop`: stop the decoder, clear the tracklist identifier, set
status `'stopped'`, forget the current index. -/
def stop (st : State) : State :=
  { (stop_player st).2 with
      currentTracklistIdentifier := ""
      currentStatus := "stopped"
      currentTrackIndex := none }

/-- `FilePlayer.clear_queue`: `stop()` then empty the queue. -/
def clear_queue (st : State) : State :=
  { stop st with queue := [], currentTrackIndex := none }

/-- The `while (0 <= index < len(self.queue)) and not (started := self._play_song(...)):
index += 1` loop of `play_from_real_queue_index`, returning
`(started, final index, final state)`.  The queue is passed separately
(`play_song` never modifies it), mirroring that the loop indexes `self.queue`
while only the decoder/status fields change. -/
def playLoop (fs : String → Bool) (q : List QueuedTrack) (st : State) (index : Int) :
    Bool × Int × State :=
  if h : 0 ≤ index ∧ index.toNat < q.length then
    if (play_song fs st (q.get ⟨index.toNat, h.2⟩).filepath).1 then
      (true, index, (play_song fs st (q.get ⟨index.toNat, h.2⟩).filepath).2)
    else
      playLoop fs q (play_song fs st (q.get ⟨index.toNat, h.2⟩).filepath).2 (index + 1)
  else
    (false, index, st)
termination_by q.length - index.toNat
decreasing_by omega

/-- The sanity-check pattern of `play_from_real_queue_index`:
`(0 <= j < len(self.queue)) and (self.queue[j].trackid == trackid)`
(short-circuit: the subscription only happens inside the bound check). -/
def checkAt (q : List QueuedTrack) (trackid : Option Int) (j : Int) : Bool :=
  if h : 0 ≤ j ∧ j.toNat < q.length then
    (q.get ⟨j.toNat, h.2⟩).trackid == trackid
  else false

/-- `FilePlayer.play_from_real_queue_index(index, trackid)`.
When `trackid` is given, the pre-flight sanity check looks at `index`, then
`index - 1` (guarded only by `index > 0`), then `index + 1` (guarded by
`index < len(queue) - 1`), and returns `False` when none matches.  The
subscriptions in the ±1 probes use raw Python indexing and can raise
`IndexError`.  Then the play loop starts at the (possibly adjusted) index,
advancing past files that fail to play; on success the index is recorded, on
exhaustion the player stops. -/
def play_from_real_queue_index (fs : String → Bool) (st : State)
    (index : Int) (trackid : Option Int) : Except PyError (Bool × State) := do
  let adjusted : Except PyError (Option Int) :=
    match trackid with
    | none => .ok (some index)
    | some _ =>
      if checkAt st.queue trackid index then .ok (some index)
      else do
        let tryPlusOne : Except PyError (Option Int) :=
          if index < (st.queue.length : Int) - 1 then do
            let it ← pyGet st.queue (index + 1)
            if it.trackid == trackid then .ok (some (index + 1)) else .ok none
          else .ok none
        if index > 0 then do
          let it ← pyGet st.queue (index - 1)
          if it.trackid == trackid then .ok (some (index - 1)) else tryPlusOne
        else tryPlusOne
  match ← adjusted with
  | none => .ok (false, st)         -- sanity check failed: `return False`
  | some index =>
    let r := playLoop fs st.queue st index
    if r.1 then
      .ok (true, { r.2.2 with currentTrackIndex := some r.2.1 })
    else
      .ok (false, stop r.2.2)

/-- `FilePlayer.set_queue(new_queue, identifier)` (note: the source accepts
exactly these two parameters).  A non-empty new queue replaces the old one,
the index is reset to 0, and playback starts whenever nothing was playing or
the new head differs from the previously playing item; an empty new queue
clears the queue.  The tracklist identifier is installed in both cases. -/
def set_queue (fs : String → Bool) (st : State)
    (new_queue : List QueuedTrack) (identifier : String) :
    Except PyError State := do
  if new_queue.isEmpty then
    return { clear_queue st with currentTracklistIdentifier := identifier }
  else
    let currently_playing ← match st.currentTrackIndex with
      | none => pure (none : Option QueuedTrack)
      | some i => (pyGet st.queue i).map some
    let st1 := { st with queue := new_queue, currentTrackIndex := some (0 : Int) }
    let headId := (new_queue.headD default).trackid
    let st2 ←
      if currently_playing.isNone || ((currently_playing.getD default).trackid != headId) then do
        let r ← play_from_real_queue_index fs st1 0 none
        pure r.2
      else
        pure st1
    return { st2 with currentTracklistIdentifier := identifier }

/-- The parameter list of `FilePlayer.set_queue` as written in the source:
`def set_queue(self, new_queue, identifier)`. -/
def set_queue_params : List String := ["self", "new_queue", "identifier"]

end Piju.FilePlayer

namespace Piju.Db

/-!
## Catalog store (`src/pijuv2/database/schema.py`, `database.py`)

Rows are structures whose nullable columns are `Option`-typed.  The database
is a `DbState`: the row lists in insertion order (SQLite rowid order, which is
what an unordered query iterates), the album↔genre association table, and the
autoincrement counters.  SQLAlchemy's `one()` / `one_or_none()` become the
helpers `one` / `one_or_none` below; a `col == value` filter against a `None`
value is `IS NULL` in SQL, i.e. plain `Option` equality.
-/

/-- The value of the `Track.Genre` attribute on a Python `Track` object: the
column value (an integer foreign key or NULL), or — on a reference passed to
`ensure_track_exists` — a genre name string awaiting resolution. -/
inductive GenreField where
  | null
  | id (n : Int)
  | name (s : String)
  deriving Repr, DecidableEq

/-- Python truthiness of a `Track.Genre` attribute (`if track.Genre`,
`if genreid`): `None` and `0` and `""` are falsy. -/
def GenreField.truthy : GenreField → Bool
  | .null => false
  | .id n => n != 0
  | .name s => s != ""

/-- Row / reference object of the `Genres` table. -/
structure Genre where
  Id : Option Int
  Name : Option String
  deriving Repr, DecidableEq

/-- Row / reference object of the `Albums` table. -/
structure Album where
  Id : Option Int
  Artist : Option String
  Title : Option String
  VolumeCount : Option Int
  MusicBrainzAlbumId : Option String
  MusicBrainzAlbumArtistId : Option String
  ReleaseYear : Option Int
  IsCompilation : Bool
  deriving Repr, DecidableEq

/-- Row / reference object of the `Artwork` table.  The binary `Blob` column
is opaque bytes; `BlobHash` (a SHA-1 digest) is not modelled — no claim
exercises blob-keyed artwork. -/
structure Artwork where
  Id : Option Int
  Path : Option String
  Blob : Option (List Nat)
  Width : Option Int
  Height : Option Int
  deriving Repr, DecidableEq

/-- Row / reference object of the `Tracks` table. `ReleaseDate` (a datetime)
is kept opaque as its source string. -/
structure Track where
  Id : Option Int
  Filepath : Option String
  Title : Option String
  Duration : Option Int
  Composer : Option String
  Artist : Option String
  Genre : GenreField
  VolumeNumber : Option Int
  TrackCount : Option Int
  TrackNumber : Option Int
  ReleaseDate : Option String
  MusicBrainzTrackId : Option String
  MusicBrainzArtistId : Option String
  Album : Option Int
  Artwork : Option Int
  deriving Repr, DecidableEq

/-- The whole database.  `albumGenres` is the `association` secondary table
(album id, genre id); the `next*` counters model SQLite id autoincrement. -/
structure DbState where
  tracks : List Track
  albums : List Album
  genres : List Genre
  artworks : List Artwork
  albumGenres : List (Option Int × Option Int)
  nextTrackId : Int
  nextAlbumId : Int
  nextGenreId : Int
  nextArtworkId : Int
  deriving Repr, DecidableEq

/-- A freshly created database (`create_all` on an empty file). -/
def emptyDb : DbState :=
  { tracks := [], albums := [], genres := [], artworks := [], albumGenres := []
    nextTrackId := 1, nextAlbumId := 1, nextGenreId := 1, nextArtworkId := 1 }

/-- SQLAlchemy `Query.one_or_none()`: `None` on no result, the row on exactly
one, `MultipleResultsFound` (→ `DatabaseIntegrityException`) otherwise. -/
def one_or_none {α : Type} : List α → Except PyError (Option α)
  | [] => .ok none
  | [a] => .ok (some a)
  | _ => .error .integrityError

/-- SQLAlchemy `Query.one()`: `NoResultFound` (→ `NotFoundException`) on no
result, the row on exactly one, `MultipleResultsFound` otherwise.  This is
`Database.get_x_by_id` exception mapping (`convert_exception_class`). -/
def one {α : Type} : List α → Except PyError α
  | [] => .error .notFound
  | [a] => .ok a
  | _ => .error .integrityError

/-- Replace the first element satisfying `p` (the ORM mutates the single
matched row object in place). -/
def updateFirst {α : Type} (p : α → Bool) (f : α → α) : List α → List α
  | [] => []
  | a :: l => if p a then f a :: l else a :: updateFirst p f l

/-- `Database.get_track_by_id` (via `get_x_by_id`). -/
def get_track_by_id (s : DbState) (trackid : Int) : Except PyError Track :=
  one (s.tracks.filter (fun t => t.Id == some trackid))

/-- `Database.get_album_by_id` (via `get_x_by_id`). -/
def get_album_by_id (s : DbState) (albumid : Int) : Except PyError Album :=
  one (s.albums.filter (fun a => a.Id == some albumid))

/-- `Database.get_genre_by_id` (via `get_x_by_id`), for the genre id held in
a `Track.Genre` attribute.  A non-integer attribute value never matches the
integer `Genre.Id` column. -/
def get_genre_by_key (s : DbState) (g : GenreField) : Except PyError Genre :=
  one (s.genres.filter (fun row =>
    match g with
    | .id n => row.Id == some n
    | _ => false))

/-- `Database.ensure_genre_exists(genre_name)`: insert-or-fetch on `Name`. -/
def ensure_genre_exists (s : DbState) (genre_name : String) :
    Except PyError (Genre × DbState) := do
  let found ← one_or_none (s.genres.filter (fun g => g.Name == some genre_name))
  match found with
  | some g => .ok (g, s)
  | none =>
    let g : Genre := { Id := some s.nextGenreId, Name := some genre_name }
    .ok (g, { s with genres := s.genres ++ [g], nextGenreId := s.nextGenreId + 1 })

/-- `Database.ensure_album_exists(albumref)`: a compilation ref first has its
`Artist` cleared; identity is `(Title, Artist)`; on a match, `VolumeCount` and
`ReleaseYear` are bumped only upwards (or filled in when NULL). -/
def ensure_album_exists (s : DbState) (albumref : Album) :
    Except PyError (Album × DbState) := do
  let albumref := if albumref.IsCompilation then { albumref with Artist := none } else albumref
  let isIdentityMatch : Album → Bool := fun a =>
    a.Title == albumref.Title && a.Artist == albumref.Artist
  let found ← one_or_none (s.albums.filter isIdentityMatch)
  match found with
  | none =>
    let alb := { albumref with Id := some s.nextAlbumId }
    .ok (alb, { s with albums := s.albums ++ [alb], nextAlbumId := s.nextAlbumId + 1 })
  | some album =>
    -- `if (album.VolumeCount is None) or (albumref.VolumeCount is not None
    --                                     and album.VolumeCount < albumref.VolumeCount)`
    let album := if album.VolumeCount.isNone
        || (albumref.VolumeCount.isSome && decide (album.VolumeCount.getD 0 < albumref.VolumeCount.getD 0)) then
      { album with VolumeCount := albumref.VolumeCount }
    else album
    let album := if album.ReleaseYear.isNone
        || (albumref.ReleaseYear.isSome && decide (album.ReleaseYear.getD 0 < albumref.ReleaseYear.getD 0)) then
      { album with ReleaseYear := albumref.ReleaseYear }
    else album
    .ok (album, { s with albums := updateFirst isIdentityMatch (fun _ => album) s.albums })

/-- `Database.ensure_artwork_exists(artworkref)`. `Path`-bearing refs are
matched on `Path`; blob-keyed matching (SHA-1 probe plus byte comparison) is
not modelled, and a ref with neither `Path` nor `Blob` hits `assert False`. -/
def ensure_artwork_exists (s : DbState) (artworkref : Artwork) :
    Except PyError (Artwork × DbState) := do
  let insert : Unit → Except PyError (Artwork × DbState) := fun _ =>
    let aw := { artworkref with Id := some s.nextArtworkId }
    .ok (aw, { s with artworks := s.artworks ++ [aw], nextArtworkId := s.nextArtworkId + 1 })
  let isPathMatch : Artwork → Bool := fun a => a.Path == artworkref.Path
  match artworkref.Path with
  | some p =>
    if p != "" then do
      let found ← one_or_none (s.artworks.filter isPathMatch)
      match found with
      | none => insert ()
      | some existing =>
        if existing.Width != artworkref.Width || existing.Height != artworkref.Height then
          let existing := { existing with Width := artworkref.Width, Height := artworkref.Height }
          .ok (existing, { s with artworks := updateFirst isPathMatch (fun _ => existing) s.artworks })
        else
          .ok (existing, s)
    else if artworkref.Blob.isSome then
      .error .unknown       -- blob dedup (SHA-1 + byte compare) not modelled
    else
      .error .assertionError
  | none =>
    if artworkref.Blob.isSome then
      .error .unknown       -- blob dedup (SHA-1 + byte compare) not modelled
    else
      .error .assertionError

/-- The wide identity tuple `ensure_track_exists` matches on when the incoming
reference has no id (`Album, Title, Duration, Artist, VolumeNumber,
TrackNumber, ReleaseDate, MusicBrainzTrackId, MusicBrainzArtistId`). -/
def wideMatch (t trackref : Track) : Bool :=
  t.Album == trackref.Album
    && t.Title == trackref.Title
    && t.Duration == trackref.Duration
    && t.Artist == trackref.Artist
    && t.VolumeNumber == trackref.VolumeNumber
    && t.TrackNumber == trackref.TrackNumber
    && t.ReleaseDate == trackref.ReleaseDate
    && t.MusicBrainzTrackId == trackref.MusicBrainzTrackId
    && t.MusicBrainzArtistId == trackref.MusicBrainzArtistId

/-- The attribute-update loop at the end of `ensure_track_exists`: every
listed mutable attribute of the found row is set to the reference's value
(the `old_val != new_val` guard only avoids redundant writes).  The row id is
untouched. -/
def setAttrs (t trackref : Track) : Track :=
  { Id := t.Id
    Filepath := trackref.Filepath
    Title := trackref.Title
    Duration := trackref.Duration
    Composer := trackref.Composer
    Artist := trackref.Artist
    Genre := trackref.Genre
    VolumeNumber := trackref.VolumeNumber
    TrackCount := trackref.TrackCount
    TrackNumber := trackref.TrackNumber
    ReleaseDate := trackref.ReleaseDate
    MusicBrainzTrackId := trackref.MusicBrainzTrackId
    MusicBrainzArtistId := trackref.MusicBrainzArtistId
    Album := trackref.Album
    Artwork := trackref.Artwork }

/-- The genre-resolution step at the top of `ensure_track_exists`:
`if isinstance(trackref.Genre, str): trackref.Genre =
self.ensure_genre_exists(trackref.Genre).Id`. -/
def resolveGenre (s : DbState) (trackref : Track) :
    Except PyError (Track × DbState) :=
  match trackref.Genre with
  | .name g => do
    let (genre, s') ← ensure_genre_exists s g
    pure ({ trackref with Genre := match genre.Id with | some n => .id n | none => .null }, s')
  | _ => pure (trackref, s)

/-- `Database.ensure_track_exists(trackref)`.  A genre name in the reference
is first resolved (created if necessary) to a genre id.  A reference without
an id is matched on the wide tuple: no match inserts, exactly one match
updates that row's attributes, several matches hit `assert False`.  A
reference with an id fetches that row (`get_track_by_id`) and updates it. -/
def ensure_track_exists (s : DbState) (trackref : Track) :
    Except PyError (Track × DbState) := do
  let (trackref, s) ← resolveGenre s trackref
  match trackref.Id with
  | none =>
    match s.tracks.filter (fun t => wideMatch t trackref) with
    | [] =>
      let row := { trackref with Id := some s.nextTrackId }
      .ok (row, { s with tracks := s.tracks ++ [row], nextTrackId := s.nextTrackId + 1 })
    | m :: rest =>
      if rest.isEmpty then
        let r := setAttrs m trackref
        .ok (r, { s with tracks := updateFirst (fun t => wideMatch t trackref) (fun _ => r) s.tracks })
      else
        .error .assertionError     -- `logging.fatal(...); assert False`
  | some tid => do
    let track ← get_track_by_id s tid
    let r := setAttrs track trackref
    .ok (r, { s with tracks := updateFirst (fun t => t.Id == some tid) (fun _ => r) s.tracks })

/-- `Database.delete_album(albumid)`: fetch (raising if unknown), delete the
row and its rows in the album↔genre association table. -/
def delete_album (s : DbState) (albumid : Int) : Except PyError DbState := do
  let _ ← get_album_by_id s albumid
  .ok { s with
          albums := s.albums.eraseP (fun a => a.Id == some albumid)
          albumGenres := s.albumGenres.filter (fun p => !(p.1 == some albumid)) }

/-- The `Album.Tracks` relationship: the tracks whose `Album` foreign key is
this album's id (the session autoflushes before relationship reads). -/
def albumTracks (s : DbState) (album : Album) : List Track :=
  s.tracks.filter (fun t => t.Album == album.Id)

/-- ASCII lowercasing, as SQLite's `lower()` applies to the ASCII range. -/
def asciiLower (s : String) : String :=
  ⟨s.data.map fun c => if 'A' ≤ c ∧ c ≤ 'Z' then Char.ofNat (c.toNat + 32) else c⟩

/-- `Database.get_track_by_filepath(path)`: a `one_or_none` query comparing
`lower(Track.Filepath)` with `lower(path)`.  A NULL `Filepath` never matches
(`lower(NULL)` is NULL). -/
def get_track_by_filepath (s : DbState) (path : String) :
    Except PyError (Option Track) :=
  one_or_none (s.tracks.filter (fun t =>
    match t.Filepath with
    | some fp => asciiLower fp == asciiLower path
    | none => false))

/-- Insertion sort by track id, implementing the query's `ORDER BY Track.Id`
(rows with equal keys keep their relative order). -/
def insertById (t : Track) : List Track → List Track
  | [] => [t]
  | u :: l => if t.Id.getD 0 < u.Id.getD 0 then t :: u :: l else u :: insertById t l

def sortById (l : List Track) : List Track :=
  l.foldr insertById []

/-- The `SELECT max(Track.Id)` aggregate: SQL `max` ignores NULLs and is NULL
on an empty table.  The query's `.first()` wraps it in a one-element row, so
the handler's `max_track_id is None` test is never true. -/
def maxTrackId (s : DbState) : Option Int :=
  s.tracks.foldl (fun acc t =>
    match t.Id, acc with
    | some n, some m => some (max m n)
    | some n, none => some n
    | none, acc => acc) none

/-- `Database.get_all_tracks_paged(start_id, limit)`: the id-window slice,
ordered by id; on an empty slice, probe `max(Id)` and return the
end-of-catalog sentinel (`None`) when `start_id` exceeds it.  The comparison
`start_id > max_track_id[0]` is a Python `int > None` — a `TypeError` — when
the table holds no ids at all. -/
def get_all_tracks_paged (s : DbState) (start_id limit : Int) :
    Except PyError (Option (List Track)) :=
  let result := sortById (s.tracks.filter (fun t =>
    match t.Id with
    | some n => decide (start_id ≤ n) && decide (n < start_id + limit)
    | none => false))
  if !result.isEmpty then
    .ok (some result)
  else
    match maxTrackId s with
    | none => .error .typeError      -- `start_id > None`
    | some m => if start_id > m then .ok none else .ok (some [])

end Piju.Db

namespace Piju.Scan

open Piju.Db

/-!
## Scanner cross-reference repair (`src/pijuv2/scan/directory.py`)
-/

/-- `set_cross_refs(db, trackref, albumref, artworkref)`: ensure the album
(and artwork) exist and point the track at them; persist the track; then, for
an update (incoming id non-null), rebuild the album's genre list from its
tracks' genres and — when the track moved between albums — delete the old
album if it is now empty; for an insert, append the track's genre to the
album's genre list if absent.  `previous_album_id` is read from the row
`ensure_track_exists` returned. -/
def set_cross_refs (s : DbState) (trackref : Track) (albumref : Album)
    (artworkref : Option Artwork) : Except PyError DbState := do
  let (album, s) ← ensure_album_exists s albumref
  let trackref := { trackref with Album := album.Id }
  let editing_track := trackref.Id.isSome
  let (artworkId, s) ←
    match artworkref with
    | some aref => do
      let (artwork, s') ← ensure_artwork_exists s aref
      pure (artwork.Id, s')
    | none => pure ((none : Option Int), s)
  let trackref := { trackref with Artwork := artworkId }
  let (track, s) ← ensure_track_exists s trackref
  let previous_album_id := track.Album
  if editing_track then
    -- `genre_ids = {track.Genre for track in album.Tracks}`
    let genre_ids := ((albumTracks s album).map (fun t => t.Genre)).eraseDups
    -- `genres = [db.get_genre_by_id(genreid) for genreid in genre_ids if genreid]`
    let genres ← (genre_ids.filter GenreField.truthy).mapM (get_genre_by_key s)
    -- `album.Genres = genres`
    let s := { s with albumGenres :=
        s.albumGenres.filter (fun p => !(p.1 == album.Id))
          ++ genres.map (fun g => (album.Id, g.Id)) }
    -- `if (previous_album_id is not None) and (previous_album_id != album.Id)`
    match previous_album_id with
    | some prev_id =>
      if some prev_id != album.Id then do
        let previous_album ← get_album_by_id s prev_id
        if (albumTracks s previous_album).isEmpty then
          delete_album s prev_id
        else
          .ok s
      else
        .ok s
    | none => .ok s
  else do
    -- `genre = db.get_genre_by_id(track.Genre) if track.Genre else None`
    let genre ← if track.Genre.truthy then (get_genre_by_key s track.Genre).map some
                else pure none
    match genre with
    | some g =>
      -- `if genre and genre not in album.Genres: album.Genres.append(genre)`
      if !(s.albumGenres.contains (album.Id, g.Id)) then
        .ok { s with albumGenres := s.albumGenres ++ [(album.Id, g.Id)] }
      else
        .ok s
    | none => .ok s

end Piju.Scan

namespace Piju.PlayerCtrl

/-!
## Player control glue (`src/pijuv2/backend/playerctrl.py`)
-/

/-- The `QueuedTrack` that `FilePlayer.set_queue` builds from a catalog
`Track` row: `QueuedTrack(item.Filepath, item.Id, item.Artist, item.Title,
None)`.  (A NULL `Filepath` is represented by `""`; the player embedding uses
plain strings for paths, and every caller supplies scanned rows, whose
`Filepath` is set.) -/
def toQueuedTrack (t : Db.Track) : FilePlayer.QueuedTrack :=
  { filepath := t.Filepath.getD ""
    trackid := t.Id
    artist := t.Artist
    title := t.Title
    artwork := none }

/-- `update_player_play_track_list(tracks, identifier, start_at_track_id)`:
resolve the start index (`list.index` raising `ValueError` becomes a
`BadRequest`), select the file player, then call
`set_queue(tracks, identifier, start_playing=False)` followed by
`play_from_real_queue_index(play_from_index)`.

`FilePlayer.set_queue` declares exactly the parameters `set_queue_params`
(`self, new_queue, identifier`); the keyword `start_playing` is not among
them, so in Python the call raises `TypeError` before the method body runs.
The guarded branch below is the body that would run if the keyword named a
declared parameter. -/
def update_player_play_track_list (fs : String → Bool) (st : FilePlayer.State)
    (tracks : List Db.Track) (identifier : String) (start_at_track_id : Option Int) :
    Except PyError FilePlayer.State := do
  let play_from_index : Int ←
    match start_at_track_id with
    | none => pure 0
    | some tid =>
      match (tracks.map (fun t => t.Id)).findIdx? (fun x => x == some tid) with
      | some i => pure (i : Int)
      | none => .error .badRequest   -- `raise BadRequest(...) from ValueError`
  -- `select_player(current_app, current_app.file_player)`: the modelled state
  -- is already the file player's
  if FilePlayer.set_queue_params.contains "start_playing" then do
    let st1 ← FilePlayer.set_queue fs st (tracks.map toQueuedTrack) identifier
    let r ← FilePlayer.play_from_real_queue_index fs st1 play_from_index none
    pure r.2
  else
    .error .typeError

end Piju.PlayerCtrl

namespace Piju.Backend

/-!
## Worker thread and download history
(`src/pijuv2/backend/workthread.py`, `downloadhistory.py`, `playerctrl.py`)
-/

/-- `DownloadInfo = namedtuple('DownloadInfo', 'filepath, artist, title, artwork, url, fake_trackid')` -/
structure DownloadInfo where
  filepath : String
  artist : Option String
  title : Option String
  artwork : Option String
  url : Option String
  fake_trackid : Int
  deriving Repr, DecidableEq

/-- `DownloadHistory`: recent URLs plus a URL → downloads map. -/
structure DownloadHistory where
  entries : List String
  files : List (String × List DownloadInfo)
  max_length : Nat
  deriving Repr, DecidableEq

/-- `DownloadHistory.get_info(url)`: `self.files.get(url)`. -/
def DownloadHistory.get_info (h : DownloadHistory) (url : String) :
    Option (List DownloadInfo) :=
  (h.files.find? (fun p => p.1 == url)).map (fun p => p.2)

/-- `DownloadHistory.set_info(url, files)`: `self.files[url] = files`. -/
def DownloadHistory.set_info (h : DownloadHistory) (url : String)
    (files : List DownloadInfo) : DownloadHistory :=
  { h with files :=
      if (h.files.find? (fun p => p.1 == url)).isSome then
        h.files.map (fun p => if p.1 == url then (url, files) else p)
      else
        h.files ++ [(url, files)] }

/-- The parameter list of the registered completion callback
`play_downloaded_files(app, url, download_info)` in `backend/playerctrl.py`
(the `queue_downloaded_files` callback declares the same three). -/
def play_downloaded_files_params : List String := ["app", "url", "download_info"]

/-- The worker's invocation `callback(self.app, download_info)` passes two
positional arguments (`workthread.py`, `WorkerThread.run`,
`FETCH_FROM_YOUTUBE` branch). -/
def worker_callback_arg_count : Nat := 2

/-- The `WorkRequests.FETCH_FROM_YOUTUBE` branch of `WorkerThread.run`: use
the download history's cached downloads unless the URL is absent, its cached
list is empty, or some cached file no longer exists; otherwise fetch afresh
and record the result; finally invoke the callback.  Python binds the two
supplied positional arguments against the callback's declared parameter list
and raises `TypeError` when the counts disagree. -/
def worker_fetch_from_youtube (fs : String → Bool)
    (fetch_audio : String → String → List DownloadInfo)
    (history : DownloadHistory) (url download_dir : String)
    (callback_params : Option (List String)) :
    Except PyError (List DownloadInfo × DownloadHistory) :=
  let cached := history.get_info url
  -- `if (not download_info) or (not all(dl.filepath.is_file() for dl in download_info))`
  let useCache := !(cached.getD []).isEmpty
      && (cached.getD []).all (fun dl => fs dl.filepath)
  let (download_info, history) :=
    if useCache then
      (cached.getD [], history)
    else
      let di := fetch_audio url download_dir
      (di, history.set_info url di)
  -- `if callback: callback(self.app, download_info)`
  match callback_params with
  | none => .ok (download_info, history)
  | some params =>
    if params.length == worker_callback_arg_count then
      .ok (download_info, history)
    else
      .error .typeError

end Piju.Backend

namespace Piju.Deserialize

/-!
## ID/URL codec (`src/pijuv2/backend/deserialize.py`, `routeconsts.py`)

`extract_id` works on Python values that are integers or strings (any other
value falls through to the final `isinstance(int)` test and yields `None`).
Strings are modelled as `List Char` over their ASCII fragment: `str.isdigit`
accepts the decimal digits `'0'..'9'`.
-/

/-- The dynamically-typed argument of `extract_id`. -/
inductive UriOrId where
  | int (n : Int)
  | str (s : List Char)
  | other
  deriving Repr, DecidableEq

/-- A decimal digit, as accepted by `str.isdigit` on ASCII text. -/
def pyIsDigit (c : Char) : Bool :=
  decide ('0' ≤ c) && decide (c ≤ '9')

/-- `str.isdigit()`: non-empty and all digits. -/
def pyIsDigitStr (l : List Char) : Bool :=
  !l.isEmpty && l.all pyIsDigit

/-- `int()` applied to an all-digit string: base-10 value. -/
def parseDigits (l : List Char) : Nat :=
  l.foldl (fun a c => 10 * a + (c.toNat - 48)) 0

/-- `uri_or_id.rsplit('/', 1)[1]`: the part after the last `'/'`. -/
def lastSegment (l : List Char) : List Char :=
  ((l.reverse.takeWhile (fun c => c ≠ '/')).reverse)

/-- `extract_id(uri_or_id)`: a string containing `'/'` is first reduced to
its last segment; a (non-empty) all-digit string is converted with `int`;
finally integers are returned and everything else maps to `None`. -/
def extract_id (v : UriOrId) : Option Int :=
  let v : UriOrId := match v with
    | .str s => if !s.isEmpty && s.contains '/' then .str (lastSegment s) else .str s
    | x => x
  let v : UriOrId := match v with
    | .str s => if !s.isEmpty && pyIsDigitStr s then .int (parseDigits s) else .str s
    | x => x
  match v with
  | .int n => some n
  | _ => none

/-- Python's decimal digit character for `d % 10` (`str(n)` emits these). -/
def pyDigitChar (d : Nat) : Char :=
  Char.ofNat (48 + d % 10)

/-- `str(n)` for a non-negative integer: decimal notation, most significant
digit first. -/
def pyStrNat (n : Nat) : List Char :=
  if _h : n < 10 then [pyDigitChar n]
  else pyStrNat (n / 10) ++ [pyDigitChar (n % 10)]
termination_by n
decreasing_by
  have := Nat.div_lt_self (by omega : 0 < n) (by omega : 1 < 10)
  omega

/-- `str(n)` for an integer: a `'-'` sign followed by the decimal magnitude
when negative. -/
def pyStrInt (n : Int) : List Char :=
  if n < 0 then '-' :: pyStrNat (-n).toNat else pyStrNat n.toNat

/-- The canonical link `/<collection>/<id>` that `RouteConstants.url_for`
builds by substituting `str(n)` into a route pattern such as
`'/albums/<albumid>'` (§4.12 of the spec: outbound links use this form). -/
def format_link (collection : List Char) (n : Int) : List Char :=
  '/' :: collection ++ '/' :: pyStrInt n

end Piju.Deserialize

namespace Piju.Routes

/-!
## HTTP volume endpoint (`src/pijuv2/backend/routes.py`) and the two players'
`set_volume` (`player/fileplayer.py`, `player/streamplayer.py`)
-/

/-- A JSON value in the request body, as Flask's `get_json` produces it
(restricted to the shapes the volume endpoint distinguishes). -/
inductive PyVal where
  | int (n : Int)
  | str (s : String)
  | null
  deriving Repr, DecidableEq

/-- Python whitespace stripped by `int(str)` (ASCII fragment). -/
def pyIsSpace (c : Char) : Bool :=
  c == ' ' || c == '\t' || c == '\n' || c == '\r' || c == '\x0b' || c == '\x0c'

/-- Digit runs as `int(str)` accepts them: digits with single underscores
allowed between digits (`"1_0"` is legal, `"1__0"` and `"1_"` are not). -/
def digitsCore (acc : Nat) : List Char → Option Nat
  | [] => some acc
  | '_' :: c :: rest =>
    if Deserialize.pyIsDigit c then digitsCore (10 * acc + (c.toNat - 48)) rest else none
  | c :: rest =>
    if Deserialize.pyIsDigit c then digitsCore (10 * acc + (c.toNat - 48)) rest else none

/-- `int(s)` for a string `s` (ASCII fragment): strip whitespace, optional
sign, then a digit run; `none` models `ValueError`. -/
def pyIntOfString (s : String) : Option Int :=
  let l := ((s.data.dropWhile pyIsSpace).reverse.dropWhile pyIsSpace).reverse
  let uval : List Char → Option Nat := fun l =>
    match l with
    | c :: rest => if Deserialize.pyIsDigit c then digitsCore (c.toNat - 48) rest else none
    | [] => none
  match l with
  | '-' :: rest => (uval rest).map (fun n => -(n : Int))
  | '+' :: rest => (uval rest).map (fun n => (n : Int))
  | rest => (uval rest).map (fun n => (n : Int))

/-- `int(volume)` for the value of `data.get('volume')`: a missing key or a
JSON `null` gives Python `None`, and `int(None)` raises `TypeError` — which
the handler's `except (AttributeError, KeyError, ValueError)` does not catch.
A string is parsed, raising `ValueError` on failure. -/
def pyIntOfVolume : Option PyVal → Except PyError Int
  | none => .error .typeError
  | some .null => .error .typeError
  | some (.int n) => .ok n
  | some (.str s) =>
    match pyIntOfString s with
    | some n => .ok n
    | none => .error .valueError

/-- The modelled state of `StreamPlayer`: only `current_volume` matters to
the volume endpoint. -/
structure StreamState where
  current_volume : Int
  deriving Repr, DecidableEq

/-- `StreamPlayer.set_volume(volume)`: save the volume (a running stream
child cannot be adjusted). -/
def streamSetVolume (st : StreamState) (volume : Int) : StreamState :=
  { st with current_volume := volume }

/-- `FilePlayer.set_volume(volume)`: forward to the decoder child if any and
save `current_volume`. -/
def fileSetVolume (st : FilePlayer.State) (volume : Int) : FilePlayer.State :=
  { st with currentVolume := volume }

/-- The application's two players (`app.file_player`, `app.stream_player`). -/
structure AppPlayers where
  file_player : FilePlayer.State
  stream_player : StreamState
  deriving Repr, DecidableEq

/-- Which player `app.current_player` points at. -/
inductive PlayerSel where
  | file
  | stream
  deriving Repr, DecidableEq

/-- `GET /player/volume`: `current_app.current_player.current_volume`. -/
def player_get_volume (app : AppPlayers) : PlayerSel → Int
  | .file => app.file_player.currentVolume
  | .stream => app.stream_player.current_volume

/-- Responses the volume handler can produce: `204`, a `BadRequest` `400`, or
an uncaught exception (Flask's generic 500). -/
inductive VolumeResponse where
  | noContent
  | badRequest
  | uncaught (e : PyError)
  deriving Repr, DecidableEq

/-- `POST /player/volume`: reject an absent/empty body; convert
`data.get('volume')` with `int`; on success store the volume on **both**
players; `ValueError` (among the caught classes) becomes a 400 with no state
change. -/
def player_set_volume (app : AppPlayers) (body : Option (List (String × PyVal))) :
    VolumeResponse × AppPlayers :=
  match body with
  | none => (.badRequest, app)                    -- `if not data: raise BadRequest()`
  | some data =>
    if data.isEmpty then (.badRequest, app)       -- an empty JSON object is falsy
    else
      match pyIntOfVolume (data.lookup "volume") with
      | .ok volume =>
        (.noContent,
          { app with
              file_player := fileSetVolume app.file_player volume
              stream_player := streamSetVolume app.stream_player volume })
      | .error .valueError => (.badRequest, app)  -- caught → `raise BadRequest(...)`
      | .error e => (.uncaught e, app)            -- TypeError propagates out

end Piju.Routes

namespace Piju.FilePlayer

/-!
## Specification vocabulary for the file-player claims

These definitions only name concepts used to *state* properties (least
existing queue position from an index; "track `tid` sits at position `j`";
the state after successfully starting position `j`).  They are not part of
the embedded code.
-/

/-- The least queue position `j ≥ i` whose file exists, if any. -/
def firstExistingFrom (fs : String → Bool) (q : List QueuedTrack) (i : Nat) : Option Nat :=
  if h : i < q.length then
    if fs (q.get ⟨i, h⟩).filepath then some i else firstExistingFrom fs q (i + 1)
  else
    none
termination_by q.length - i

/-- Track `tid` sits at (0-based) position `j` of the queue. -/
def sitsAt (q : List QueuedTrack) (tid : Int) (j : Int) : Bool :=
  decide (0 ≤ j) && ((q.get? j.toNat).map (fun it => it.trackid) == some (some tid))

/-- The filepath at queue position `j` (meaningful when `j` is in range). -/
def queueFileAt (q : List QueuedTrack) (j : Int) : String :=
  ((q.get? j.toNat).getD default).filepath

/-- The player state after successfully starting playback of queue position
`j`: the decoder for that file is running, status is `'playing'`, and
`currentTrackIndex` records `j`; everything else is untouched. -/
def playedState (st : State) (j : Int) : State :=
  { st with
      currentPlayer := some (decoderFor (queueFileAt st.queue j), queueFileAt st.queue j)
      currentStatus := "playing"
      currentTrackIndex := some j }

/-- The player state after the play loop exhausted the queue and `stop()`
ran: no decoder, status `'stopped'`, no index, identifier cleared. -/
def stoppedState (st : State) : State :=
  { st with
      currentPlayer := none
      currentTracklistIdentifier := ""
      currentStatus := "stopped"
      currentTrackIndex := none }

end Piju.FilePlayer

namespace Piju.Examples

open Piju.Db Piju.FilePlayer

/-!
## Concrete instances used by counterexamples and witnesses

`exTrk1`/`exAlb1`/`exTrk2`/`exAlb2` transcribe the repository's own test
`test_database.py::test_change_compilation_to_single_artist` (which is also
the spec's "Compilation→single-artist flip" scenario); the queues transcribe
`test_player.py` and the spec's queue scenarios.
-/

/-- `Track(Filepath='dummy.mp3', Title='My Track', Artist='Various Artists',
TrackNumber=1, TrackCount=1)` -/
def exTrk1 : Db.Track :=
  { Id := none, Filepath := some "dummy.mp3", Title := some "My Track", Duration := none,
    Composer := none, Artist := some "Various Artists", Genre := .null,
    VolumeNumber := none, TrackCount := some 1, TrackNumber := some 1,
    ReleaseDate := none, MusicBrainzTrackId := none, MusicBrainzArtistId := none,
    Album := none, Artwork := none }

/-- `Album(Title='My Album', Artist='Various Artists', IsCompilation=True)` -/
def exAlb1 : Db.Album :=
  { Id := none, Artist := some "Various Artists", Title := some "My Album",
    VolumeCount := none, MusicBrainzAlbumId := none, MusicBrainzAlbumArtistId := none,
    ReleaseYear := none, IsCompilation := true }

/-- The second-pass track reference: same path and title, `Id` carried over
from the first pass (id 1), `Artist='Bill and Ben'`. -/
def exTrk2 : Db.Track :=
  { exTrk1 with Id := some 1, Artist := some "Bill and Ben" }

/-- `Album(Title='My Album', Artist='Bill and Ben', IsCompilation=False)` -/
def exAlb2 : Db.Album :=
  { exAlb1 with Artist := some "Bill and Ben", IsCompilation := false }

/-- The two-element queue `[trk 123 → 1.mp3, trk 234 → 2.mp3]` of the spec's
queue-sanity scenario and `test_player.py`. -/
def exQueue2 : List QueuedTrack :=
  [{ filepath := "1.mp3", trackid := some 123, artist := none, title := none, artwork := none },
   { filepath := "2.mp3", trackid := some 234, artist := none, title := none, artwork := none }]

/-- A file player whose queue is `exQueue2`. -/
def exPlayer2 : FilePlayer.State :=
  { initState with queue := exQueue2 }

/-- The queue `[missing.mp3 (123), exists.mp3 (456)]` of the missing-file
auto-skip scenario. -/
def exQueueMiss : List QueuedTrack :=
  [{ filepath := "missing.mp3", trackid := some 123, artist := none, title := none, artwork := none },
   { filepath := "exists.mp3", trackid := some 456, artist := none, title := none, artwork := none }]

/-- A file player whose queue is `exQueueMiss`. -/
def exPlayerMiss : FilePlayer.State :=
  { initState with queue := exQueueMiss }

/-- A filesystem on which every path exists. -/
def fsAll : String → Bool := fun _ => true

/-- A filesystem on which only `exists.mp3` exists. -/
def fsOnlyExists : String → Bool := fun f => f == "exists.mp3"

/-- A catalog holding one track with `Filepath` `/Music/Song.mp3` (id 1). -/
def exFpState : DbState :=
  { emptyDb with
      tracks := [{ exTrk1 with Id := some 1, Filepath := some "/Music/Song.mp3" }]
      nextTrackId := 2 }

/-- The track stored in `exFpState`. -/
def exFpTrack : Db.Track :=
  { exTrk1 with Id := some 1, Filepath := some "/Music/Song.mp3" }

/-- A track reference with a genre name, for the idempotence witness. -/
def exC8Ref : Db.Track :=
  { exTrk1 with Genre := .name "Rock" }

/-- The row `ensure_track_exists` inserts for `exC8Ref` on an empty catalog. -/
def exC8Row : Db.Track :=
  { exC8Ref with Id := some 1, Genre := .id 1 }

/-- The catalog after inserting `exC8Ref` into an empty catalog. -/
def exC8State : DbState :=
  { emptyDb with
      tracks := [exC8Row]
      genres := [{ Id := some 1, Name := some "Rock" }]
      nextTrackId := 2
      nextGenreId := 2 }

/-- An application whose players are freshly initialised. -/
def exApp : Piju.Routes.AppPlayers :=
  { file_player := initState, stream_player := { current_volume := 100 } }

end Piju.Examples

/-!
# Lemmas

General-purpose lemmas about the embedding, shared by the claim theorems.
-/

namespace Piju

theorem pyGet_ok_of_lt {α : Type} (xs : List α) (i : Nat) (h : i < xs.length) :
    pyGet xs i = .ok (xs.get ⟨i, h⟩) := by
  unfold pyGet
  rw [dif_pos]
  · simp
  · simpa using h

theorem pyGet_ok_int {α : Type} (xs : List α) (i : Int)
    (h0 : 0 ≤ i) (h : i.toNat < xs.length) :
    pyGet xs i = .ok (xs.get ⟨i.toNat, h⟩) := by
  unfold pyGet
  rw [dif_pos ⟨h0, h⟩]

theorem pyGet_err_of_ge {α : Type} (xs : List α) (i : Int) (h : (xs.length : Int) ≤ i) :
    pyGet xs i = .error .indexError := by
  unfold pyGet
  rw [dif_neg, dif_neg]
  · omega
  · omega

/-- Inversion for `Except` bind: a successful bind splits into a successful
first step and a successful continuation. -/
theorem except_bind_ok {α β : Type} (x : Except PyError α) (f : α → Except PyError β)
    (b : β) : x >>= f = .ok b ↔ ∃ a, x = .ok a ∧ f a = .ok b := by
  cases x with
  | ok a => simp [Bind.bind, Except.bind]
  | error e => simp [Bind.bind, Except.bind]

end Piju

namespace Piju.Db

theorem one_eq_ok {α : Type} {l : List α} {a : α} (h : one l = .ok a) : l = [a] := by
  match l, h with
  | [x], h => cases h; rfl

theorem one_singleton {α : Type} (a : α) : one [a] = .ok a := rfl

theorem one_or_none_eq_ok {α : Type} {l : List α} {x : Option α}
    (h : one_or_none l = .ok x) : (l = [] ∧ x = none) ∨ ∃ a, l = [a] ∧ x = some a := by
  match l, h with
  | [], h => exact .inl ⟨rfl, by cases h; rfl⟩
  | [a], h => exact .inr ⟨a, rfl, by cases h; rfl⟩

theorem one_or_none_singleton {α : Type} (a : α) : one_or_none [a] = .ok (some a) := rfl

theorem filter_singleton_prop {α : Type} {p : α → Bool} {l : List α} {m : α}
    (h : l.filter p = [m]) : p m = true := by
  have : m ∈ l.filter p := by rw [h]; exact List.mem_singleton.mpr rfl
  exact (List.mem_filter.mp this).2

/-- Replacing the unique `p`-element of `l` by an element that still
satisfies `p` leaves exactly that element as the `p`-filter. -/
theorem filter_updateFirst {α : Type} {p : α → Bool} {l : List α} {m r : α}
    (hl : l.filter p = [m]) (hr : p r = true) :
    (updateFirst p (fun _ => r) l).filter p = [r] := by
  induction l with
  | nil => simp at hl
  | cons a t ih =>
    by_cases ha : p a
    · rw [List.filter_cons_of_pos ha] at hl
      have ht : t.filter p = [] := by
        have := congrArg List.tail hl
        simpa using this
      rw [updateFirst, if_pos ha, List.filter_cons_of_pos hr, ht]
    · rw [List.filter_cons_of_neg (by simpa using ha)] at hl
      rw [updateFirst, if_neg (by simpa using ha),
        List.filter_cons_of_neg (by simpa using ha)]
      exact ih hl

/-- Replacing the unique `p`-element of `l` by itself is the identity. -/
theorem updateFirst_self {α : Type} {p : α → Bool} {l : List α} {r : α}
    (hl : l.filter p = [r]) : updateFirst p (fun _ => r) l = l := by
  induction l with
  | nil => rfl
  | cons a t ih =>
    by_cases ha : p a
    · rw [List.filter_cons_of_pos ha] at hl
      have ha' : a = r := by
        have := congrArg List.head? hl
        simpa using this
      rw [updateFirst, if_pos ha, ha']
    · rw [List.filter_cons_of_neg (by simpa using ha)] at hl
      rw [updateFirst, if_neg (by simpa using ha), ih hl]

theorem setAttrs_Id (t ref : Track) : (setAttrs t ref).Id = t.Id := rfl

theorem setAttrs_setAttrs (t ref : Track) :
    setAttrs (setAttrs t ref) ref = setAttrs t ref := rfl

theorem wideMatch_setAttrs (t ref : Track) : wideMatch (setAttrs t ref) ref = true := by
  simp [wideMatch, setAttrs]

theorem wideMatch_withId (ref : Track) (v : Option Int) :
    wideMatch { ref with Id := v } ref = true := by
  simp [wideMatch]

/-- `ensure_genre_exists` when the genre is the unique row with that name:
it is returned and the state is untouched. -/
theorem ensure_genre_exists_found {s : DbState} {g : String} {genre : Genre}
    (hf : s.genres.filter (fun x => x.Name == some g) = [genre]) :
    ensure_genre_exists s g = .ok (genre, s) := by
  unfold ensure_genre_exists
  rw [hf]
  rfl

/-- After a successful `ensure_genre_exists`, the result is the unique row
with that name, and the track table is untouched. -/
theorem ensure_genre_exists_post {s : DbState} {g : String} {genre : Genre} {s' : DbState}
    (h : ensure_genre_exists s g = .ok (genre, s')) :
    s'.genres.filter (fun x => x.Name == some g) = [genre] ∧ s'.tracks = s.tracks := by
  unfold ensure_genre_exists at h
  rw [except_bind_ok] at h
  obtain ⟨found, hfound, hrest⟩ := h
  rcases one_or_none_eq_ok hfound with ⟨hnil, hx⟩ | ⟨a, hfa, hx⟩
  · subst hx
    simp only at hrest
    cases hrest
    constructor
    · simp only [List.filter_append, hnil]
      simp
    · rfl
  · subst hx
    simp only at hrest
    cases hrest
    exact ⟨hfa, rfl⟩

/-- A second `resolveGenre` with the same reference, run on any state whose
genre table matches the state the first call produced, returns the same
resolved reference and leaves the state untouched. -/
theorem resolveGenre_again {s : DbState} {T T' : Track} {s' : DbState}
    (h : resolveGenre s T = .ok (T', s'))
    (s'' : DbState) (hg : s''.genres = s'.genres) :
    resolveGenre s'' T = .ok (T', s'') := by
  unfold resolveGenre at h ⊢
  cases hG : T.Genre with
  | name g =>
    rw [hG] at h
    rw [except_bind_ok] at h
    obtain ⟨⟨genre, s0⟩, hgen, hrest⟩ := h
    simp only at hrest
    cases hrest
    have post := ensure_genre_exists_post hgen
    have : ensure_genre_exists s'' g = .ok (genre, s'') :=
      ensure_genre_exists_found (by rw [hg]; exact post.1)
    rw [except_bind_ok]
    exact ⟨(genre, s''), this, rfl⟩
  | null =>
    rw [hG] at h
    cases h
    rfl
  | id n =>
    rw [hG] at h
    cases h
    rfl

theorem resolveGenre_Id {s : DbState} {T T' : Track} {s' : DbState}
    (h : resolveGenre s T = .ok (T', s')) : T'.Id = T.Id := by
  unfold resolveGenre at h
  cases hG : T.Genre with
  | name g =>
    rw [hG] at h
    rw [except_bind_ok] at h
    obtain ⟨⟨genre, s0⟩, _, hrest⟩ := h
    simp only at hrest
    cases hrest
    rfl
  | null => rw [hG] at h; cases h; rfl
  | id n => rw [hG] at h; cases h; rfl

theorem resolveGenre_tracks {s : DbState} {T T' : Track} {s' : DbState}
    (h : resolveGenre s T = .ok (T', s')) : s'.tracks = s.tracks := by
  unfold resolveGenre at h
  cases hG : T.Genre with
  | name g =>
    rw [hG] at h
    rw [except_bind_ok] at h
    obtain ⟨⟨genre, s0⟩, hgen, hrest⟩ := h
    simp only at hrest
    cases hrest
    exact (ensure_genre_exists_post hgen).2
  | null => rw [hG] at h; cases h; rfl
  | id n => rw [hG] at h; cases h; rfl

end Piju.Db

namespace Piju.FilePlayer

theorem play_song_exists {fs : String → Bool} {f : String} (st : State) (h : fs f = true) :
    play_song fs st f =
      (true, { st with currentPlayer := some (decoderFor f, f), currentStatus := "playing" }) := by
  unfold play_song stop_player
  rw [if_pos h]

theorem play_song_missing {fs : String → Bool} {f : String} (st : State) (h : fs f = false) :
    play_song fs st f = (false, { st with currentPlayer := none }) := by
  unfold play_song stop_player
  rw [if_neg (by simp [h])]

theorem playLoop_out_of_range (fs : String → Bool) (q : List QueuedTrack) (st : State)
    (i : Int) (h : ¬(0 ≤ i ∧ i.toNat < q.length)) :
    playLoop fs q st i = (false, i, st) := by
  rw [playLoop, dif_neg h]

theorem playLoop_plays_here (fs : String → Bool) (q : List QueuedTrack) (st : State)
    (i : Int) (h0 : 0 ≤ i) (hlen : i.toNat < q.length)
    (hfs : fs (q.get ⟨i.toNat, hlen⟩).filepath = true) :
    playLoop fs q st i =
      (true, i,
        { st with
            currentPlayer := some (decoderFor (q.get ⟨i.toNat, hlen⟩).filepath,
                                   (q.get ⟨i.toNat, hlen⟩).filepath)
            currentStatus := "playing" }) := by
  rw [playLoop, dif_pos ⟨h0, hlen⟩, play_song_exists st hfs]
  simp

/-- One missing-file iteration of the play loop, at a natural index. -/
theorem playLoop_step_missing (fs : String → Bool) (q : List QueuedTrack) (st : State)
    (i : Nat) (h : i < q.length) (hfs : fs (q.get ⟨i, h⟩).filepath = false) :
    playLoop fs q st (i : Int) =
      playLoop fs q { st with currentPlayer := none } ((i + 1 : Nat) : Int) := by
  rw [playLoop, dif_pos (by simpa using h)]
  simp only [Int.toNat_ofNat]
  rw [play_song_missing st hfs]
  simp only [Bool.false_eq_true, if_false]
  norm_cast

/-- The play loop at an in-range natural index with an existing file starts
it at once. -/
theorem playLoop_plays_nat (fs : String → Bool) (q : List QueuedTrack) (st : State)
    (i : Nat) (h : i < q.length) (hfs : fs (q.get ⟨i, h⟩).filepath = true) :
    playLoop fs q st (i : Int) =
      (true, (i : Int),
        { st with
            currentPlayer := some (decoderFor (q.get ⟨i, h⟩).filepath, (q.get ⟨i, h⟩).filepath)
            currentStatus := "playing" }) := by
  rw [playLoop, dif_pos (by simpa using h)]
  simp only [Int.toNat_ofNat]
  rw [play_song_exists st hfs]
  simp

/-- When some position `≥ i` has an existing file, the play loop starts the
least such position `j`, regardless of the incoming decoder/status state. -/
theorem playLoop_firstExisting_some (fs : String → Bool) (q : List QueuedTrack)
    (i j : Nat) (hfind : firstExistingFrom fs q i = some j) :
    ∀ st : State, ∃ hj : j < q.length,
      playLoop fs q st (i : Int) =
        (true, (j : Int),
          { st with
              currentPlayer := some (decoderFor (q.get ⟨j, hj⟩).filepath,
                                     (q.get ⟨j, hj⟩).filepath)
              currentStatus := "playing" }) := by
  induction i using firstExistingFrom.induct fs q with
  | case1 i h hfs =>
    rw [firstExistingFrom, dif_pos h, if_pos hfs] at hfind
    cases hfind
    intro st
    exact ⟨h, playLoop_plays_nat fs q st _ h hfs⟩
  | case2 i h hfs ih =>
    rw [firstExistingFrom, dif_pos h, if_neg hfs] at hfind
    intro st
    obtain ⟨hj, hpl⟩ := ih hfind { st with currentPlayer := none }
    refine ⟨hj, ?_⟩
    rw [playLoop_step_missing fs q st i h (by simpa using hfs), hpl]
  | case3 i h =>
    rw [firstExistingFrom, dif_neg h] at hfind
    cases hfind

/-- When no position `≥ i` has an existing file (and `i` is in range, so at
least one play is attempted), the loop runs off the end of the queue with the
decoder stopped. -/
theorem playLoop_firstExisting_none (fs : String → Bool) (q : List QueuedTrack)
    (i : Nat) (hfind : firstExistingFrom fs q i = none) :
    i < q.length →
    ∀ st : State,
      playLoop fs q st (i : Int) =
        (false, (q.length : Int), { st with currentPlayer := none }) := by
  induction i using firstExistingFrom.induct fs q with
  | case1 i h hfs =>
    rw [firstExistingFrom, dif_pos h, if_pos hfs] at hfind
    cases hfind
  | case2 i h hfs ih =>
    rw [firstExistingFrom, dif_pos h, if_neg hfs] at hfind
    intro _ st
    rw [playLoop_step_missing fs q st i h (by simpa using hfs)]
    by_cases h2 : i + 1 < q.length
    · rw [ih hfind h2 { st with currentPlayer := none }]
    · rw [playLoop_out_of_range fs q _ _ (by simp; omega)]
      have h3 : i + 1 = q.length := by omega
      rw [h3]
  | case3 i h =>
    intro hi
    exact absurd hi h

theorem checkAt_eq_sitsAt (q : List QueuedTrack) (tid : Int) (j : Int) :
    checkAt q (some tid) j = sitsAt q tid j := by
  unfold checkAt sitsAt
  by_cases h : 0 ≤ j ∧ j.toNat < q.length
  · rw [dif_pos h, List.get?_eq_get h.2]
    simp [h.1]
  · rw [dif_neg h]
    rcases Classical.em (0 ≤ j) with h0 | h0
    · have hge : q.length ≤ j.toNat := by omega
      rw [List.get?_eq_none.mpr hge]
      simp
    · simp [h0]

theorem sitsAt_bounds {q : List QueuedTrack} {tid : Int} {j : Int}
    (h : sitsAt q tid j = true) :
    0 ≤ j ∧ ∃ hj : j.toNat < q.length, (q.get ⟨j.toNat, hj⟩).trackid = some tid := by
  unfold sitsAt at h
  obtain ⟨h0, h1⟩ := Bool.and_eq_true_iff.mp h
  rcases hg : q.get? j.toNat with _ | it
  · rw [hg] at h1; simp at h1
  · rw [hg] at h1
    obtain ⟨hjl, hget⟩ := List.get?_eq_some.mp hg
    refine ⟨by simpa using h0, hjl, ?_⟩
    rw [hget]
    simpa using h1

theorem sitsAt_get {q : List QueuedTrack} {tid : Int} {j : Int}
    (h0 : 0 ≤ j) (hj : j.toNat < q.length)
    (hid : (q.get ⟨j.toNat, hj⟩).trackid = some tid) :
    sitsAt q tid j = true := by
  unfold sitsAt
  rw [List.get?_eq_get hj]
  simp only [List.get_eq_getElem] at hid
  simp [h0, hid]

theorem queueFileAt_get {q : List QueuedTrack} {j : Int} (hj : j.toNat < q.length) :
    queueFileAt q j = (q.get ⟨j.toNat, hj⟩).filepath := by
  unfold queueFileAt
  rw [List.get?_eq_get hj]
  rfl

end Piju.FilePlayer

namespace Piju.Deserialize

theorem pyDigitChar_val (d : Nat) : (pyDigitChar d).toNat = 48 + d % 10 := by
  unfold pyDigitChar
  have hm : d % 10 < 10 := Nat.mod_lt _ (by omega)
  revert hm
  generalize d % 10 = k
  intro hm
  interval_cases k <;> decide

theorem pyDigitChar_isDigit (d : Nat) : pyIsDigit (pyDigitChar d) = true := by
  unfold pyDigitChar
  have hm : d % 10 < 10 := Nat.mod_lt _ (by omega)
  revert hm
  generalize d % 10 = k
  intro hm
  interval_cases k <;> decide

theorem pyIsDigit_ne_slash {c : Char} (h : pyIsDigit c = true) : c ≠ '/' := by
  intro hc
  subst hc
  exact absurd h (by decide)

theorem parseDigits_append (a : List Char) (c : Char) :
    parseDigits (a ++ [c]) = 10 * parseDigits a + (c.toNat - 48) := by
  simp [parseDigits, List.foldl_append]

/-- `str(n)` is a non-empty digit string whose base-10 value is `n`. -/
theorem pyStrNat_spec (n : Nat) :
    pyStrNat n ≠ [] ∧ (∀ c ∈ pyStrNat n, pyIsDigit c = true) ∧
      parseDigits (pyStrNat n) = n := by
  induction n using Nat.strong_induction_on with
  | _ n ih =>
    rw [pyStrNat]
    split
    · next h =>
      refine ⟨by simp, ?_, ?_⟩
      · intro c hc
        rw [List.mem_singleton] at hc
        subst hc
        exact pyDigitChar_isDigit n
      · show parseDigits [pyDigitChar n] = n
        have : parseDigits [pyDigitChar n] = 10 * 0 + ((pyDigitChar n).toNat - 48) := rfl
        rw [this, pyDigitChar_val]
        omega
    · next h =>
      have hlt : n / 10 < n := Nat.div_lt_self (by omega) (by omega)
      obtain ⟨hne, hdig, hval⟩ := ih (n / 10) hlt
      refine ⟨by simp, ?_, ?_⟩
      · intro c hc
        rcases List.mem_append.mp hc with hc | hc
        · exact hdig c hc
        · rw [List.mem_singleton] at hc
          subst hc
          exact pyDigitChar_isDigit (n % 10)
      · rw [parseDigits_append, hval, pyDigitChar_val]
        omega

theorem takeWhile_append_stop {α : Type} (p : α → Bool) (xs ys : List α) (y : α)
    (hxs : ∀ x ∈ xs, p x = true) (hy : p y = false) :
    (xs ++ y :: ys).takeWhile p = xs := by
  induction xs with
  | nil => simp [List.takeWhile_cons, hy]
  | cons a t ih =>
    rw [List.cons_append, List.takeWhile_cons,
      hxs a (List.mem_cons_self a t), ih (fun x hx => hxs x (List.mem_cons_of_mem a hx))]
    simp

/-- `rsplit('/', 1)[1]` of `pre ++ "/" ++ suf` is `suf` whenever `suf` holds
no slash. -/
theorem lastSegment_append (pre suf : List Char) (hsuf : ∀ c ∈ suf, c ≠ '/') :
    lastSegment (pre ++ '/' :: suf) = suf := by
  unfold lastSegment
  rw [List.reverse_append, List.reverse_cons, List.append_assoc, List.singleton_append]
  rw [takeWhile_append_stop _ _ _ _
    (fun x hx => decide_eq_true (hsuf x (List.mem_reverse.mp hx))) (by decide)]
  exact List.reverse_reverse suf

end Piju.Deserialize

/-!
# Claims

One theorem per claim of the specification audit, in claim order, each
preceded by its statement in natural language.
-/

namespace Piju.Claims

open Piju.Db Piju.Scan Piju.FilePlayer Piju.Examples

/-- C1: the claim states that re-ingesting the sole track of a compilation
album under a concrete artist (`IsCompilation=false`) deletes the
now-empty old album, leaving exactly one album.  Evaluating `set_cross_refs`
on exactly the repository's own test scenario
(`test_database.py::test_change_compilation_to_single_artist`) shows the
code leaves **two** albums and one track: `previous_album_id` is read from
the row *after* `ensure_track_exists` has already overwritten its `Album`
column with the new album's id, so the moved-from album is never deleted.
The code contradicts its own test (which asserts one album). -/
theorem C1_compilation_flip_leaves_two_albums :
    ((Scan.set_cross_refs Db.emptyDb exTrk1 exAlb1 none).bind
        (fun s1 => Scan.set_cross_refs s1 exTrk2 exAlb2 none)).map
      (fun s2 => (s2.albums.length, s2.tracks.length))
    = .ok (2, 1) := rfl

/-- C4: the claim states the worker invokes the fetch callback with three
arguments `(app, url, downloads)`.  The registered callback
`play_downloaded_files(app, url, download_info)` indeed declares three
parameters, but `WorkerThread.run` calls `callback(self.app, download_info)`
with only two, so every dequeued `FETCH_FROM_YOUTUBE` request with this
callback raises `TypeError` — for any filesystem, fetcher, history and
URL. -/
theorem C4_worker_callback_arity_mismatch
    (fs : String → Bool) (fetch_audio : String → String → List Backend.DownloadInfo)
    (history : Backend.DownloadHistory) (url download_dir : String) :
    Backend.worker_fetch_from_youtube fs fetch_audio history url download_dir
      (some Backend.play_downloaded_files_params) = .error .typeError := by
  unfold Backend.worker_fetch_from_youtube
  simp [Backend.play_downloaded_files_params, Backend.worker_callback_arg_count]

/-- C7: the claim states `getAllTracksPaged` is total, returning the
end-of-catalog sentinel on an empty catalog so that paged sweeps such as
`deleteMissingTracks` terminate.  On a catalog with no tracks the
`max(Track.Id)` aggregate row holds SQL NULL, the guard
`max_track_id is None` never fires (the row object itself is not `None`),
and `start_id > max_track_id[0]` is Python `int > None`: every call raises
`TypeError` instead of returning the sentinel. -/
theorem C7_paged_raises_on_empty_catalog (start_id limit : Int) :
    Db.get_all_tracks_paged Db.emptyDb start_id limit = .error .typeError := rfl

end Piju.Claims

namespace Piju.Claims

open Piju.Db Piju.Scan Piju.FilePlayer Piju.Examples Piju.Deserialize

/-- C2: the claim states `setQueue(tracks, identifier, startPlaying)` with
`startPlaying=false` installs the queue without ever starting playback.  In
the code, `FilePlayer.set_queue` declares no `start_playing` parameter at
all: the caller `update_player_play_track_list` (which passes
`start_playing=False`, exactly as the spec describes) raises `TypeError`
on every track-list play request; and `set_queue` itself, called with its
actual two arguments on an idle player, immediately starts playback of the
new head track. -/
theorem C2_set_queue_has_no_start_playing_parameter :
    PlayerCtrl.update_player_play_track_list fsAll FilePlayer.initState
        [{ exTrk1 with Id := some 12345, Filepath := some "fileexists.mp3" }] "/albums/1" none
      = .error .typeError
  ∧ (FilePlayer.set_queue fsAll FilePlayer.initState
        [{ filepath := "fileexists.mp3", trackid := some 12345,
           artist := none, title := none, artwork := none }] "queue").map
      (fun st => (st.currentStatus, st.currentTrackIndex, st.currentPlayer))
      = .ok ("playing", some 0, some (.mp3, "fileexists.mp3")) := by
  constructor
  · rfl
  · simp [FilePlayer.set_queue, FilePlayer.play_from_real_queue_index, FilePlayer.playLoop,
      FilePlayer.play_song, FilePlayer.stop_player, FilePlayer.decoderFor, FilePlayer.initState,
      fsAll, Bind.bind, Except.bind, Except.map, pure, Except.pure,
      show FilePlayer.pyEndsWith "fileexists.mp3" ".mp3" = true from by decide]

/-- C3 (counterexample): the claim states a filepath lookup is
case-sensitive, so a query differing from the stored `Filepath` only in
letter case returns no track.  With the single stored path
`/Music/Song.mp3`, querying `/MUSIC/song.MP3` — a different string that
differs only in letter case — returns that track: the query compares
`lower(Filepath)` with `lower(path)`. -/
theorem C3_counterexample_case_differing_query_finds_track :
    Db.get_track_by_filepath exFpState "/MUSIC/song.MP3" = .ok (some exFpTrack)
  ∧ some "/MUSIC/song.MP3" ≠ exFpTrack.Filepath := by
  exact ⟨rfl, by decide⟩

/-- C5 (counterexample): the claim states that for every queue and every
index `i`, when the given `trackId` sits at none of `i`, `i-1`, `i+1` the
call returns `False` without starting playback.  With the two-element queue
`[123, 234]`, `playFromRealIndex(3, 123)` instead raises `IndexError`: the
`i-1` probe `self.queue[index - 1]` subscripts position 2 of a two-element
list. -/
theorem C5_counterexample_out_of_range_index_raises :
    FilePlayer.play_from_real_queue_index fsAll exPlayer2 3 (some 123)
      = .error .indexError := rfl

/-- C9 (counterexample): the claim states `extractId(formatLink("albums", n))
= n` for every integer `n`.  For `n = -3` the link is the string
"slash albums slash minus three", whose last segment `-3` fails
`str.isdigit`, so `extract_id` returns `None` instead of `-3`. -/
theorem C9_counterexample_negative_id_does_not_round_trip :
    Deserialize.extract_id (.str (Deserialize.format_link "albums".data (-3))) = none := by
  have h3 : pyStrNat 3 = ['3'] := by rw [pyStrNat]; decide
  have hf : Deserialize.format_link "albums".data (-3) = "/albums/-3".data := by
    unfold Deserialize.format_link Deserialize.pyStrInt
    rw [if_pos (by norm_num), show ((-(-3) : Int)).toNat = 3 by decide, h3]
    rfl
  rw [hf]
  rfl

end Piju.Claims

namespace Piju.Claims

open Piju.Db Piju.FilePlayer Piju.Examples

/-- C6: when the file at the requested index is missing, the play loop
advances one position at a time without surfacing an error: the call still
returns normally, the least later position with an existing file becomes
`currentTrackIndex` with status `'playing'`, and if every remaining position
is missing the player stops (status `'stopped'`, `currentTrackIndex`
cleared). -/
theorem C6_missing_file_auto_advance (fs : String → Bool) (st : FilePlayer.State)
    (i : Nat) (hi : i < st.queue.length)
    (hmiss : fs (st.queue.get ⟨i, hi⟩).filepath = false) :
    FilePlayer.play_from_real_queue_index fs st (i : Int) none =
      match firstExistingFrom fs st.queue i with
      | some j => .ok (true, playedState st (j : Int))
      | none => .ok (false, stoppedState st) := by
  unfold FilePlayer.play_from_real_queue_index
  simp only [Bind.bind, Except.bind]
  cases hfind : firstExistingFrom fs st.queue i with
  | some j =>
    obtain ⟨hj, hpl⟩ := playLoop_firstExisting_some fs st.queue i j hfind st
    rw [hpl]
    simp only [if_true]
    unfold playedState
    rw [queueFileAt_get (show ((j : Int)).toNat < st.queue.length by simpa using hj)]
    simp
  | none =>
    rw [playLoop_firstExisting_none fs st.queue i hfind hi st]
    simp only [Bool.false_eq_true, if_false]
    rfl

/-- C6 witness: the spec's missing-file auto-skip scenario — queue
`[missing.mp3 (123), exists.mp3 (456)]` on a filesystem where only
`exists.mp3` exists; playing from index 0 skips silently to index 1 and the
player reports `'playing'`. -/
theorem C6_witness :
    fsOnlyExists "missing.mp3" = false
  ∧ FilePlayer.play_from_real_queue_index fsOnlyExists exPlayerMiss 0 none
      = .ok (true, playedState exPlayerMiss 1)
  ∧ (playedState exPlayerMiss 1).currentStatus = "playing"
  ∧ (playedState exPlayerMiss 1).currentTrackIndex = some 1
  ∧ ((playedState exPlayerMiss 1).queue.get? 1).map (fun it => it.trackid)
      = some (some 456) := by
  refine ⟨by decide, ?_, by decide, by decide, by decide⟩
  have h := C6_missing_file_auto_advance fsOnlyExists exPlayerMiss 0 (by decide) (by decide)
  rw [show firstExistingFrom fsOnlyExists exPlayerMiss.queue 0 = some 1 from by
        rw [firstExistingFrom, firstExistingFrom]; decide] at h
  simpa using h

end Piju.Claims

namespace Piju.Claims

open Piju.Db Piju.Examples

/-- C8: `ensureTrackExists` is idempotent — whenever a call with reference
`T` succeeds, returning row `t1` and catalog `s1`, calling it again with the
same reference returns the same row (hence the same `Id`) and leaves every
table of the catalog (tracks, albums, genres, artwork, associations and the
id counters) unchanged. -/
theorem C8_ensure_track_exists_idempotent (T : Db.Track) (s : DbState)
    (t1 : Db.Track) (s1 : DbState)
    (h : ensure_track_exists s T = .ok (t1, s1)) :
    ensure_track_exists s1 T = .ok (t1, s1) := by
  unfold ensure_track_exists at h ⊢
  rw [except_bind_ok] at h
  obtain ⟨⟨T', s'⟩, hres, hbody⟩ := h
  dsimp only at hbody
  rw [except_bind_ok]
  cases hid : T'.Id with
  | none =>
    rw [hid] at hbody
    cases hf : s'.tracks.filter (fun t => wideMatch t T') with
    | nil =>
      rw [hf] at hbody
      simp only [Except.ok.injEq, Prod.mk.injEq] at hbody
      obtain ⟨ht1, hs1⟩ := hbody
      refine ⟨(T', s1), resolveGenre_again hres s1 (by rw [← hs1]), ?_⟩
      dsimp only
      rw [hid]
      have hfx : s1.tracks.filter (fun t => wideMatch t T') = [t1] := by
        rw [← hs1, ← ht1]
        simp only [List.filter_append, hf]
        simp [wideMatch_withId]
      rw [hfx]
      dsimp only
      have hset : setAttrs t1 T' = t1 := by rw [← ht1]; exact rfl
      rw [hset, updateFirst_self hfx]
      rfl
    | cons m rest =>
      cases rest with
      | nil =>
        rw [hf] at hbody
        simp only [List.isEmpty_nil, if_true, Except.ok.injEq, Prod.mk.injEq] at hbody
        obtain ⟨ht1, hs1⟩ := hbody
        refine ⟨(T', s1), resolveGenre_again hres s1 (by rw [← hs1]), ?_⟩
        dsimp only
        rw [hid]
        have hp1 : wideMatch t1 T' = true := by rw [← ht1]; exact wideMatch_setAttrs m T'
        have hfx : s1.tracks.filter (fun t => wideMatch t T') = [t1] := by
          rw [← hs1, ← ht1]
          exact filter_updateFirst hf (by rw [ht1]; exact hp1)
        rw [hfx]
        dsimp only
        have hset : setAttrs t1 T' = t1 := by rw [← ht1]; exact setAttrs_setAttrs m T'
        rw [hset, updateFirst_self hfx]
        rfl
      | cons b rest2 =>
        rw [hf] at hbody
        simp only [List.isEmpty_cons, if_false] at hbody
        cases hbody
  | some tid =>
    rw [hid] at hbody
    rw [except_bind_ok] at hbody
    obtain ⟨track, hget, hrest⟩ := hbody
    simp only [Except.ok.injEq, Prod.mk.injEq] at hrest
    obtain ⟨ht1, hs1⟩ := hrest
    unfold get_track_by_id at hget
    have hfil : s'.tracks.filter (fun t => t.Id == some tid) = [track] := one_eq_ok hget
    have htid : (track.Id == some tid) = true :=
      @filter_singleton_prop Db.Track (fun t => t.Id == some tid) s'.tracks track hfil
    have hp1 : (t1.Id == some tid) = true := by
      rw [← ht1, setAttrs_Id]; exact htid
    refine ⟨(T', s1), resolveGenre_again hres s1 (by rw [← hs1]), ?_⟩
    dsimp only
    rw [hid]
    rw [except_bind_ok]
    have hfx : s1.tracks.filter (fun t => t.Id == some tid) = [t1] := by
      rw [← hs1, ← ht1]
      exact filter_updateFirst hfil (by rw [ht1]; exact hp1)
    refine ⟨t1, ?_, ?_⟩
    · unfold get_track_by_id
      rw [hfx]
      rfl
    · have hset : setAttrs t1 T' = t1 := by rw [← ht1]; exact setAttrs_setAttrs track T'
      rw [hset, updateFirst_self hfx]

/-- C8 witness: inserting `Track('My Track', …, Genre='Rock')` into an empty
catalog yields row id 1 and the catalog `exC8State`; running
`ensureTrackExists` again with the very same reference returns the same row
and leaves the catalog exactly as it was. -/
theorem C8_witness :
    ensure_track_exists Db.emptyDb exC8Ref = .ok (exC8Row, exC8State)
  ∧ ensure_track_exists exC8State exC8Ref = .ok (exC8Row, exC8State) :=
  ⟨rfl, C8_ensure_track_exists_idempotent exC8Ref Db.emptyDb exC8Row exC8State rfl⟩

end Piju.Claims

namespace Piju.Claims

open Piju.Db Piju.Deserialize Piju.Examples

/-- C3 (amended): looking a Track up by filepath is case-insensitive — the
query compares `lower(Filepath)` against `lower(path)`, so a query that
matches a stored track's `Filepath` up to letter case (and is its unique
case-insensitive match) returns that track. -/
theorem C3_amended_filepath_lookup_is_case_insensitive
    (s : DbState) (p : String) (t : Db.Track)
    (hmem : t ∈ s.tracks)
    (hcase : t.Filepath.map asciiLower = some (asciiLower p))
    (huniq : (s.tracks.filter (fun u => match u.Filepath with
        | some fp => asciiLower fp == asciiLower p
        | none => false)).length = 1) :
    Db.get_track_by_filepath s p = .ok (some t) := by
  unfold Db.get_track_by_filepath
  have hpt : (match t.Filepath with
      | some fp => asciiLower fp == asciiLower p
      | none => false) = true := by
    cases hfp : t.Filepath with
    | none => rw [hfp] at hcase; simp at hcase
    | some fp =>
      rw [hfp] at hcase
      simp only [Option.map_some', Option.some.injEq] at hcase
      simp [hcase]
  have hmemf : t ∈ s.tracks.filter (fun u => match u.Filepath with
      | some fp => asciiLower fp == asciiLower p
      | none => false) :=
    List.mem_filter.mpr ⟨hmem, hpt⟩
  obtain ⟨a, ha⟩ := List.length_eq_one.mp huniq
  rw [ha] at hmemf
  rw [List.mem_singleton] at hmemf
  subst hmemf
  rw [ha]
  exact one_or_none_singleton t

/-- C3 witness: with `/Music/Song.mp3` stored as the only track, the query
`/music/SONG.mp3` (same path up to letter case, the unique case-insensitive
match) returns the stored track. -/
theorem C3_amended_witness :
    exFpTrack ∈ exFpState.tracks
  ∧ exFpTrack.Filepath.map asciiLower = some (asciiLower "/music/SONG.mp3")
  ∧ (exFpState.tracks.filter (fun u => match u.Filepath with
      | some fp => asciiLower fp == asciiLower "/music/SONG.mp3"
      | none => false)).length = 1
  ∧ Db.get_track_by_filepath exFpState "/music/SONG.mp3" = .ok (some exFpTrack) :=
  ⟨by decide, by decide, by decide,
   C3_amended_filepath_lookup_is_case_insensitive exFpState "/music/SONG.mp3" exFpTrack
     (by decide) (by decide) (by decide)⟩

/-- C9 (amended): `extract_id` accepts an integer (returned as-is) and, for
every collection name and every **non-negative** `n`, round-trips the
canonical link: `extract_id(format_link(c, n)) = n`; malformed strings (a
non-digit last segment, a plain word, the empty string) and non-int/str
values give `None`. -/
theorem C9_amended_id_codec_round_trip :
    (∀ (collection : List Char) (n : Nat),
        Deserialize.extract_id (.str (Deserialize.format_link collection (n : Int)))
          = some (n : Int))
  ∧ (∀ n : Int, Deserialize.extract_id (.int n) = some n)
  ∧ Deserialize.extract_id (.str "/albums/12X".data) = none
  ∧ Deserialize.extract_id (.str "cat".data) = none
  ∧ Deserialize.extract_id (.str "".data) = none
  ∧ Deserialize.extract_id .other = none := by
  refine ⟨?_, fun n => rfl, rfl, rfl, rfl, rfl⟩
  intro c n
  obtain ⟨hne, hdig, hval⟩ := pyStrNat_spec n
  have hfmt : format_link c (n : Int) = ('/' :: c) ++ '/' :: pyStrNat n := by
    unfold format_link pyStrInt
    rw [if_neg (by omega), Int.toNat_ofNat]
  rw [hfmt]
  have hc1 : (!(('/' :: c) ++ '/' :: pyStrNat n).isEmpty
      && ((('/' :: c) ++ '/' :: pyStrNat n).contains '/')) = true := by
    simp
  have hseg := lastSegment_append ('/' :: c) (pyStrNat n)
    (fun ch hc => pyIsDigit_ne_slash (hdig ch hc))
  have hc2 : (!(pyStrNat n).isEmpty && pyIsDigitStr (pyStrNat n)) = true := by
    unfold pyIsDigitStr
    have h1 : (pyStrNat n).isEmpty = false := by
      cases hq : pyStrNat n
      · exact absurd hq hne
      · rfl
    rw [h1]
    simp only [Bool.not_false, Bool.true_and]
    exact List.all_eq_true.mpr hdig
  unfold extract_id
  simp only [hc1, if_true, hseg, hc2, hval]

end Piju.Claims

namespace Piju.Claims

open Piju.FilePlayer Piju.Examples

/-- C5 (amended): for every queue, every index `0 ≤ i ≤ len(queue)` and
every `trackId` (the queued files being present on disk),
`playFromRealIndex(i, trackId)` plays the requested track when it sits at
position `i`, `i-1` or `i+1` — checking `i` first, then `i-1`, then `i+1` —
and records the position actually played in `currentTrackIndex`; when the
track sits at none of these positions it returns `False` and leaves the
player untouched.  (For `i > len(queue)` the `i-1` probe subscripts out of
range and raises `IndexError` instead, which is what forces the bound.) -/
theorem C5_amended_adjacent_index_search (fs : String → Bool)
    (st : FilePlayer.State) (i tid : Int)
    (h0 : 0 ≤ i) (hle : i ≤ st.queue.length)
    (hfs : ∀ it ∈ st.queue, fs it.filepath = true) :
    FilePlayer.play_from_real_queue_index fs st i (some tid) =
      if sitsAt st.queue tid i then .ok (true, playedState st i)
      else if sitsAt st.queue tid (i - 1) then .ok (true, playedState st (i - 1))
      else if sitsAt st.queue tid (i + 1) then .ok (true, playedState st (i + 1))
      else .ok (false, st) := by
  unfold FilePlayer.play_from_real_queue_index
  simp only [checkAt_eq_sitsAt, Bind.bind, Except.bind]
  by_cases hA : sitsAt st.queue tid i = true
  · obtain ⟨h0i, hj, hid⟩ := sitsAt_bounds hA
    simp only [hA, if_true]
    rw [playLoop_plays_here fs st.queue st i h0 hj
      (hfs _ (List.get_mem st.queue i.toNat hj))]
    simp only [if_true]
    unfold playedState
    rw [queueFileAt_get hj]
  · simp only [Bool.not_eq_true] at hA
    simp only [hA, Bool.false_eq_true, if_false]
    by_cases hB : sitsAt st.queue tid (i - 1) = true
    · obtain ⟨h0B, hjB, hidB⟩ := sitsAt_bounds hB
      simp only [hB, if_true]
      rw [if_pos (show i > 0 by omega)]
      rw [pyGet_ok_int st.queue (i - 1) h0B hjB]
      simp only [Except.bind]
      rw [show ((st.queue.get ⟨(i - 1).toNat, hjB⟩).trackid == some tid) = true by
            simpa using hidB]
      simp only [if_true]
      rw [playLoop_plays_here fs st.queue st (i - 1) h0B hjB
        (hfs _ (List.get_mem st.queue (i - 1).toNat hjB))]
      simp only [if_true]
      unfold playedState
      rw [queueFileAt_get hjB]
    · simp only [Bool.not_eq_true] at hB
      simp only [hB, Bool.false_eq_true, if_false]
      have hmiss : ∀ (j : Int) (hj0 : 0 ≤ j) (hj : j.toNat < st.queue.length),
          sitsAt st.queue tid j = false →
          ((st.queue.get ⟨j.toNat, hj⟩).trackid == some tid) = false := by
        intro j hj0 hj hfalse
        cases hq : ((st.queue.get ⟨j.toNat, hj⟩).trackid == some tid) with
        | false => rfl
        | true =>
          exfalso
          have hsit := sitsAt_get hj0 hj (by simpa using hq)
          rw [hfalse] at hsit
          cases hsit
      by_cases hC : sitsAt st.queue tid (i + 1) = true
      · obtain ⟨h0C, hjC, hidC⟩ := sitsAt_bounds hC
        simp only [hC, if_true]
        have hlt : i < (st.queue.length : Int) - 1 := by omega
        by_cases hpos : i > 0
        · have hj1 : (i - 1).toNat < st.queue.length := by omega
          rw [if_pos hpos, pyGet_ok_int st.queue (i - 1) (by omega) hj1]
          simp only [Except.bind]
          rw [hmiss (i - 1) (by omega) hj1 hB]
          simp only [Bool.false_eq_true, if_false]
          rw [if_pos hlt, pyGet_ok_int st.queue (i + 1) (by omega) hjC]
          simp only [Except.bind]
          rw [show ((st.queue.get ⟨(i + 1).toNat, hjC⟩).trackid == some tid) = true by
                simpa using hidC]
          simp only [if_true]
          rw [playLoop_plays_here fs st.queue st (i + 1) (by omega) hjC
            (hfs _ (List.get_mem st.queue (i + 1).toNat hjC))]
          simp only [if_true]
          unfold playedState
          rw [queueFileAt_get hjC]
        · rw [if_neg hpos]
          rw [if_pos hlt, pyGet_ok_int st.queue (i + 1) (by omega) hjC]
          simp only [Except.bind]
          rw [show ((st.queue.get ⟨(i + 1).toNat, hjC⟩).trackid == some tid) = true by
                simpa using hidC]
          simp only [if_true]
          rw [playLoop_plays_here fs st.queue st (i + 1) (by omega) hjC
            (hfs _ (List.get_mem st.queue (i + 1).toNat hjC))]
          simp only [if_true]
          unfold playedState
          rw [queueFileAt_get hjC]
      · simp only [Bool.not_eq_true] at hC
        simp only [hC, Bool.false_eq_true, if_false]
        by_cases hpos : i > 0
        · have hj1 : (i - 1).toNat < st.queue.length := by omega
          rw [if_pos hpos, pyGet_ok_int st.queue (i - 1) (by omega) hj1]
          simp only [Except.bind]
          rw [hmiss (i - 1) (by omega) hj1 hB]
          simp only [Bool.false_eq_true, if_false]
          by_cases hlt : i < (st.queue.length : Int) - 1
          · have hjC : (i + 1).toNat < st.queue.length := by omega
            rw [if_pos hlt, pyGet_ok_int st.queue (i + 1) (by omega) hjC]
            simp only [Except.bind]
            rw [hmiss (i + 1) (by omega) hjC hC]
            simp only [Bool.false_eq_true, if_false]
          · rw [if_neg hlt]
        · rw [if_neg hpos]
          by_cases hlt : i < (st.queue.length : Int) - 1
          · have hjC : (i + 1).toNat < st.queue.length := by omega
            rw [if_pos hlt, pyGet_ok_int st.queue (i + 1) (by omega) hjC]
            simp only [Except.bind]
            rw [hmiss (i + 1) (by omega) hjC hC]
            simp only [Bool.false_eq_true, if_false]
          · rw [if_neg hlt]

end Piju.Claims

namespace Piju.Claims

open Piju.FilePlayer Piju.Examples Piju.Routes

/-- C5 witness: the spec's queue-sanity scenario — queue
`[trk 123 → 1.mp3, trk 234 → 2.mp3]` with both files present:
`playFromRealIndex(0, 234)` plays `2.mp3` with `currentIndex = 1`, and
`playFromRealIndex(1, 123)` plays `1.mp3` with `currentIndex = 0`. -/
theorem C5_amended_witness :
    (0 : Int) ≤ 0 ∧ (0 : Int) ≤ exPlayer2.queue.length
  ∧ (∀ it ∈ exPlayer2.queue, fsAll it.filepath = true)
  ∧ FilePlayer.play_from_real_queue_index fsAll exPlayer2 0 (some 234)
      = .ok (true, playedState exPlayer2 1)
  ∧ (playedState exPlayer2 1).currentTrackIndex = some 1
  ∧ (playedState exPlayer2 1).currentPlayer = some (.mp3, "2.mp3")
  ∧ FilePlayer.play_from_real_queue_index fsAll exPlayer2 1 (some 123)
      = .ok (true, playedState exPlayer2 0)
  ∧ (playedState exPlayer2 0).currentTrackIndex = some 0
  ∧ (playedState exPlayer2 0).currentPlayer = some (.mp3, "1.mp3") := by
  have hfs : ∀ it ∈ exPlayer2.queue, fsAll it.filepath = true := by decide
  refine ⟨by norm_num, by decide, hfs, ?_, by decide, by decide, ?_, by decide, by decide⟩
  · have h := C5_amended_adjacent_index_search fsAll exPlayer2 0 234
      (by norm_num) (by decide) hfs
    rw [h]
    simp only [show sitsAt exPlayer2.queue 234 0 = false from by decide,
      show sitsAt exPlayer2.queue 234 (0 - 1) = false from by decide,
      show sitsAt exPlayer2.queue 234 (0 + 1) = true from by decide,
      Bool.false_eq_true, if_false, if_true]
    norm_num
  · have h := C5_amended_adjacent_index_search fsAll exPlayer2 1 123
      (by norm_num) (by decide) hfs
    rw [h]
    simp only [show sitsAt exPlayer2.queue 123 1 = false from by decide,
      show sitsAt exPlayer2.queue 123 (1 - 1) = true from by decide,
      Bool.false_eq_true, if_false, if_true]
    norm_num

/-- C10: `POST /player/volume` with an integer `volume` stores the value on
**both** the file player and the stream player and answers 204, so the
volume reported afterwards is that value whichever player is selected next;
a non-numeric volume string raises `ValueError`, which the handler converts
to a 400 response with both players' volumes (indeed the whole player state)
unchanged. -/
theorem C10_volume_set_on_both_players
    (app : AppPlayers) (d : List (String × PyVal)) (hne : d ≠ []) :
    (∀ v : Int, d.lookup "volume" = some (.int v) →
        ∃ app', player_set_volume app (some d) = (.noContent, app')
          ∧ app'.file_player.currentVolume = v
          ∧ app'.stream_player.current_volume = v
          ∧ (∀ sel : PlayerSel, player_get_volume app' sel = v))
  ∧ (∀ s : String, d.lookup "volume" = some (.str s) → pyIntOfString s = none →
        player_set_volume app (some d) = (.badRequest, app)) := by
  constructor
  · intro v hv
    refine ⟨{ app with
        file_player := fileSetVolume app.file_player v
        stream_player := streamSetVolume app.stream_player v }, ?_, rfl, rfl, ?_⟩
    · unfold player_set_volume
      dsimp only
      rw [if_neg (by simpa [List.isEmpty_iff] using hne)]
      rw [hv]
      rfl
    · intro sel
      cases sel <;> rfl
  · intro s hv hparse
    unfold player_set_volume
    dsimp only
    rw [if_neg (by simpa [List.isEmpty_iff] using hne)]
    rw [hv]
    unfold pyIntOfVolume
    dsimp only
    rw [hparse]

/-- C10 witness: on a fresh app, `{"volume": 55}` gives 204 with both
players at 55 (reported whichever is selected), and `{"volume": "loud"}`
gives 400 with the app untouched. -/
theorem C10_witness :
    ([("volume", PyVal.int 55)] ≠ ([] : List (String × PyVal)))
  ∧ (player_set_volume exApp (some [("volume", .int 55)])).1 = .noContent
  ∧ (player_set_volume exApp (some [("volume", .int 55)])).2.file_player.currentVolume = 55
  ∧ (player_set_volume exApp (some [("volume", .int 55)])).2.stream_player.current_volume = 55
  ∧ pyIntOfString "loud" = none
  ∧ player_set_volume exApp (some [("volume", .str "loud")]) = (.badRequest, exApp) := by
  obtain ⟨app', h1, h2, h3, _⟩ :=
    (C10_volume_set_on_both_players exApp [("volume", .int 55)] (by decide)).1 55 rfl
  have h4 := (C10_volume_set_on_both_players exApp [("volume", .str "loud")] (by decide)).2
    "loud" rfl rfl
  refine ⟨by decide, ?_, ?_, ?_, rfl, h4⟩
  · rw [h1]
  · rw [h1]; exact h2
  · rw [h1]; exact h3

end Piju.Claims
